import Mathlib

/-!
Verification development for the TrueBPL duplicate-detection system.

The development shallowly embeds three layers of the repository:

1. the SQLite/PostgreSQL schema of supabase/migrations/20251202040720
   (CHECK constraints and the UNIQUE constraint on beneficiaries.card_number);
2. the TypeScript frontend logic of src/components/BeneficiaryRegistration.tsx
   (handleSubmit) and src/components/MonitoringDashboard.tsx (handleReviewAlert),
   together with the status union types of src/types/index.ts;
3. the verification and duplicate-rule engine.  The Python backend
   (backend/main.py, duplicate_detection.py, config.py) is not part of the
   checked-in sources; those definitions are modelled from the specification
   and are marked as such in their doc comments.
-/

namespace BPL

/-- Status CHECK constraint on the transactions table, from the migration
line 132: status text DEFAULT success CHECK status IN (success, failed,
flagged, pending). -/
def transactions_status_check (s : String) : Bool :=
  s == "success" || s == "failed" || s == "flagged" || s == "pending"

/-- Status union of the Transaction interface in src/types/index.ts,
which is the union of success, failed, flagged and pending. -/
def tsTransactionStatus (s : String) : Bool :=
  s == "success" || s == "failed" || s == "flagged" || s == "pending"

/-- Transaction status set as the specification words it (section 3:
status element of the set success, failed, flagged).  Kept separate from
the schema predicate so the two can be compared. -/
def specTransactionStatus (s : String) : Bool :=
  s == "success" || s == "failed" || s == "flagged"

/-- Confidence CHECK constraint of the transactions table, from the
migration: face_match_confidence numeric CHECK (face_match_confidence >= 0
AND face_match_confidence <= 100). -/
def face_match_confidence_check (c : ℚ) : Bool :=
  decide (0 ≤ c) && decide (c ≤ 100)

/-- Row of the beneficiaries table (migration lines 87-98), restricted to
the columns the verified operations touch. -/
structure BeneficiaryRow where
  id : Nat
  card_number : String
  name : String
  phone : String
  address : String
  face_image_url : String
  face_embedding : String
  status : String
deriving DecidableEq, Repr

/-- Errors the datastore itself can raise on insert. -/
inductive DbError
  | uniqueViolation
deriving DecidableEq, Repr

/-- Insert into the beneficiaries table under the UNIQUE constraint on
card_number (migration line 89: card_number text UNIQUE NOT NULL).  The
constraint rejects the row whenever any existing row carries the same
card number, whatever the status of that row. -/
def dbInsertBeneficiary (table : List BeneficiaryRow) (row : BeneficiaryRow) :
    Except DbError (List BeneficiaryRow) :=
  if table.any (fun r => r.card_number == row.card_number) then
    Except.error DbError.uniqueViolation
  else
    Except.ok (table ++ [row])

/-- Outcome messages of handleSubmit in BeneficiaryRegistration.tsx. -/
inductive RegMessage
  | missingImage
  | missingFields
  | alreadyRegistered
  | insertError
  | regSuccess
deriving DecidableEq, Repr

/-- handleSubmit of src/components/BeneficiaryRegistration.tsx.  The
capturedImage argument is None when no image was captured; an empty data
URL is falsy in the source just like null.  The function first validates
the image, then the required fields, then performs the application-level
existence check against the beneficiaries table, and finally inserts the
row through the datastore (which enforces the unique constraint).  On a
validation or duplicate failure the table is returned unchanged. -/
def handleSubmit (table : List BeneficiaryRow) (capturedImage : Option String)
    (card_number name phone address : String) (newId : Nat) :
    RegMessage × List BeneficiaryRow :=
  match capturedImage with
  | none => (RegMessage.missingImage, table)
  | some img =>
    if img == "" then (RegMessage.missingImage, table)
    else if card_number == "" || name == "" then (RegMessage.missingFields, table)
    else if table.any (fun r => r.card_number == card_number) then
      (RegMessage.alreadyRegistered, table)
    else
      match dbInsertBeneficiary table
        ⟨newId, card_number, name, phone, address,
         img.take 100 ++ "...", img, "active"⟩ with
      | Except.error _ => (RegMessage.insertError, table)
      | Except.ok t => (RegMessage.regSuccess, t)

/-- The card-number column of a beneficiaries table is duplicate free. -/
def cardNodup (table : List BeneficiaryRow) : Prop :=
  (table.map (fun r => r.card_number)).Nodup

instance (table : List BeneficiaryRow) : Decidable (cardNodup table) := by
  unfold cardNodup
  infer_instance

/-- Row of the duplicate_alerts table, restricted to the columns
handleReviewAlert in MonitoringDashboard.tsx touches.  The reviewed_at
column holds an ISO timestamp string, as produced by
new Date().toISOString() in the source. -/
structure AlertRow where
  id : String
  status : String
  reviewed_by : Option String
  reviewed_at : Option String
deriving DecidableEq, Repr

/-- handleReviewAlert of src/components/MonitoringDashboard.tsx.  The
source sends an unconditional UPDATE of status, reviewed_by and
reviewed_at filtered only by id; it never reads the current status, takes
no reviewer argument, and has no error value for a disallowed
transition. -/
def handleReviewAlert (alerts : List AlertRow) (alertId status now : String) :
    List AlertRow :=
  alerts.map (fun a =>
    if a.id == alertId then
      { a with status := status, reviewed_by := some "Admin", reviewed_at := some now }
    else a)

/-- The monitoring dashboard renders the Resolve and Dismiss buttons for
an alert exactly when its status is pending (MonitoringDashboard.tsx line
220). -/
def reviewButtonsVisible (a : AlertRow) : Bool :=
  a.status == "pending"

/-- Modelled from the spec: transaction status values written by the
verification engine (section 4.4; the backend duplicate_detection.py is
absent from the sources). -/
inductive TxStatus
  | success
  | failed
  | flagged
deriving DecidableEq, Repr

/-- Serialization of an engine transaction status to the text column of
the transactions table. -/
def statusString : TxStatus → String
  | TxStatus.success => "success"
  | TxStatus.failed => "failed"
  | TxStatus.flagged => "flagged"

/-- Modelled from the spec: the four alert types of section 3 (the
backend duplicate_detection.py is absent from the sources).  The same
four values appear in the duplicate_alerts CHECK constraint of the
migration. -/
inductive AlertType
  | duplicate_location
  | different_person
  | multiple_attempts
  | suspicious_timing
deriving DecidableEq, Repr

/-- Modelled from the spec: alert severities of section 3. -/
inductive Severity
  | low
  | medium
  | high
  | critical
deriving DecidableEq, Repr

/-- Modelled from the spec: a registered beneficiary as the Identity
Registry of section 4.1 holds it (the backend is absent from the
sources). -/
structure Beneficiary where
  id : Nat
  card_number : String
  name : String
  embedding : String
  status : String
deriving DecidableEq, Repr

/-- Modelled from the spec: a ledger transaction of section 3.  Time is
measured in whole hours as an integer, which is exact for the duplicate
window arithmetic of rule 4; confidence is a rational in the range 0 to
100 or None when the comparator produced no score. -/
structure Tx where
  id : Nat
  beneficiary_id : Option Nat
  card_number : String
  shop_id : Nat
  cycle_id : Nat
  confidence : Option ℚ
  status : TxStatus
  created_at : ℤ
deriving DecidableEq, Repr

/-- Modelled from the spec: an alert specification produced by the
Duplicate Rule Evaluator of section 4.4. -/
structure AlertSpec where
  alert_type : AlertType
  severity : Severity
  previous_transaction_id : Option Nat
deriving DecidableEq, Repr

/-- Modelled from the spec: the configuration surface of section 6
(FACE_MATCH_THRESHOLD, DUPLICATE_TIME_WINDOW_HOURS,
MAX_TRANSACTIONS_PER_CYCLE of the absent backend config.py). -/
structure Config where
  FACE_MATCH_THRESHOLD : ℚ
  DUPLICATE_TIME_WINDOW_HOURS : ℤ
  MAX_TRANSACTIONS_PER_CYCLE : Nat
deriving DecidableEq, Repr

/-- Default face-match threshold as the repository documents it: the
README configuration block for backend/config.py reads
FACE_MATCH_THRESHOLD = 0.6 (README lines 236-240). -/
def FACE_MATCH_THRESHOLD : ℚ := mkRat 6 10

/-- Default duplicate window in hours, from the README configuration
block: DUPLICATE_TIME_WINDOW_HOURS = 24. -/
def DUPLICATE_TIME_WINDOW_HOURS : ℤ := 24

/-- Default per-cycle collection limit, from the README configuration
block: MAX_TRANSACTIONS_PER_CYCLE = 1. -/
def MAX_TRANSACTIONS_PER_CYCLE : Nat := 1

/-- Modelled from the spec: face acceptance rule of section 4.2,
confidence at or above the threshold means the face is accepted; a
missing comparator result is never accepted (section 7,
ExternalServiceError). -/
def faceAccepted (cfg : Config) : Option ℚ → Bool
  | some c => decide (cfg.FACE_MATCH_THRESHOLD ≤ c)
  | none => false

/-- Modelled from the spec: the current verification attempt as the rule
evaluator of section 4.4 sees it. -/
structure Attempt where
  card_number : String
  shop_id : Nat
  cycle_id : Nat
  time : ℤ
  confidence : Option ℚ
deriving DecidableEq, Repr

/-- Latest transaction of a list by created_at timestamp. -/
def latestTx : List Tx → Option Tx
  | [] => none
  | t :: ts =>
    match latestTx ts with
    | none => some t
    | some u => if u.created_at < t.created_at then some t else some u

/-- Earliest transaction of a list by created_at timestamp. -/
def earliestTx : List Tx → Option Tx
  | [] => none
  | t :: ts =>
    match earliestTx ts with
    | none => some t
    | some u => if t.created_at ≤ u.created_at then some t else some u

/-- Absolute distance between two points in time, in hours. -/
def hoursApart (a b : ℤ) : ℤ :=
  if a ≤ b then b - a else a - b

/-- Transaction of a list nearest in time to the current attempt. -/
def nearestTx (now : ℤ) : List Tx → Option Tx
  | [] => none
  | t :: ts =>
    match nearestTx now ts with
    | none => some t
    | some u =>
      if hoursApart now t.created_at ≤ hoursApart now u.created_at then some t
      else some u

/-- Modelled from the spec: the Duplicate Rule Evaluator of section 4.4.
It receives the current attempt, the same-cycle history excluding the
just-written record, and the resolved beneficiary, and fires the four
rules independently in the fixed order 1 to 4:
rule 1 different_person fires when the confidence is below the threshold;
rule 2 duplicate_location when the face is accepted and a prior
successful transaction of the same beneficiary in the cycle sits at a
different shop, referencing the latest such transaction;
rule 3 multiple_attempts when the face is accepted and the count of
prior successes of the beneficiary in the cycle reaches
MAX_TRANSACTIONS_PER_CYCLE, referencing the earliest such transaction;
rule 4 suspicious_timing when the face is accepted and any prior
transaction of the same card lies within DUPLICATE_TIME_WINDOW_HOURS,
referencing the nearest-in-time prior transaction. -/
def evaluateRules (cfg : Config) (cur : Attempt) (hist : List Tx)
    (ben : Beneficiary) : List AlertSpec :=
  let accepted := faceAccepted cfg cur.confidence
  let r1 :=
    match cur.confidence with
    | some c =>
      if c < cfg.FACE_MATCH_THRESHOLD then
        [AlertSpec.mk AlertType.different_person Severity.critical none]
      else []
    | none => []
  let r2 :=
    if accepted then
      match latestTx (hist.filter (fun t =>
          t.status == TxStatus.success && t.beneficiary_id == some ben.id &&
          t.shop_id != cur.shop_id)) with
      | some p => [AlertSpec.mk AlertType.duplicate_location Severity.high (some p.id)]
      | none => []
    else []
  let r3 :=
    if accepted then
      let succs := hist.filter (fun t =>
        t.status == TxStatus.success && t.beneficiary_id == some ben.id)
      if cfg.MAX_TRANSACTIONS_PER_CYCLE ≤ succs.length then
        match earliestTx succs with
        | some p => [AlertSpec.mk AlertType.multiple_attempts Severity.high (some p.id)]
        | none => []
      else []
    else []
  let r4 :=
    if accepted then
      match nearestTx cur.time (hist.filter (fun t =>
          t.card_number == cur.card_number &&
          decide (hoursApart cur.time t.created_at ≤ cfg.DUPLICATE_TIME_WINDOW_HOURS))) with
      | some p => [AlertSpec.mk AlertType.suspicious_timing Severity.medium (some p.id)]
      | none => []
    else []
  r1 ++ r2 ++ r3 ++ r4

/-- Modelled from the spec: derived transaction status of section 4.4.
failed when the face is rejected, flagged when the face is accepted and a
rule fired, success otherwise. -/
def deriveStatus (accepted : Bool) (alerts : List AlertSpec) : TxStatus :=
  if accepted then
    if alerts.isEmpty then TxStatus.success else TxStatus.flagged
  else TxStatus.failed

/-- Modelled from the spec: Identity Registry lookup of section 4.1,
exact match on the unique card number. -/
def lookupBeneficiary (registry : List Beneficiary) (card : String) :
    Option Beneficiary :=
  registry.find? (fun b => b.card_number == card)

/-- Modelled from the spec: the structured verification result of
section 6. -/
structure VerifyResult where
  accepted : Bool
  transaction_status : TxStatus
  confidence : Option ℚ
  alerts : List AlertSpec
deriving DecidableEq, Repr

/-- Modelled from the spec: the Verification Orchestrator of section 4.5
(the backend main.py is absent from the sources), after the active cycle
has been resolved.  The comparator result arrives as an optional
confidence; None covers both the unknown-card path, where no reference
embedding exists, and a comparator failure.  On a registry miss a failed
transaction with a null beneficiary id is still appended and the rule
evaluator is not run; otherwise the rules run against the same-cycle
history as of the read that preceded the write, and exactly one
transaction is appended in every path. -/
def verify (cfg : Config) (registry : List Beneficiary) (ledger : List Tx)
    (card : String) (shop cycle : Nat) (conf : Option ℚ) (now : ℤ)
    (newId : Nat) : List Tx × VerifyResult :=
  match lookupBeneficiary registry card with
  | none =>
    (ledger ++ [Tx.mk newId none card shop cycle none TxStatus.failed now],
     VerifyResult.mk false TxStatus.failed none [])
  | some ben =>
    let accepted := faceAccepted cfg conf
    let hist := ledger.filter (fun t => t.cycle_id == cycle)
    let alerts := evaluateRules cfg (Attempt.mk card shop cycle now conf) hist ben
    let st := deriveStatus accepted alerts
    (ledger ++ [Tx.mk newId (some ben.id) card shop cycle conf st now],
     VerifyResult.mk accepted st conf alerts)



/-- Sample configuration used by concrete witnesses: threshold one half,
window 24 hours, one collection per cycle. -/
def sampleCfg : Config := Config.mk (mkRat 1 2) 24 1

/-- Sample registered beneficiary used by concrete witnesses. -/
def sampleBen : Beneficiary := Beneficiary.mk 1 "C001" "Asha" "ref-embedding" "active"

/-- Sample prior successful transaction used by concrete witnesses. -/
def sampleTx : Tx := Tx.mk 10 (some 1) "C001" 1 5 (some 80) TxStatus.success 100

/-- Sample beneficiaries-table row (status suspended) used by concrete
witnesses. -/
def sampleRow : BeneficiaryRow :=
  BeneficiaryRow.mk 1 "C1" "Asha" "" "" "u" "e" "suspended"

theorem nearestTx_mem (now : ℤ) (l : List Tx) (p : Tx)
    (h : nearestTx now l = some p) : p ∈ l := by
  induction l with
  | nil => cases h
  | cons t ts ih =>
    unfold nearestTx at h
    cases hm : nearestTx now ts with
    | none =>
      rw [hm] at h
      dsimp only at h
      obtain rfl : t = p := by injection h
      exact List.mem_cons_self _ _
    | some u =>
      rw [hm] at h
      dsimp only at h
      by_cases hc : hoursApart now t.created_at ≤ hoursApart now u.created_at
      · rw [if_pos hc] at h
        obtain rfl : t = p := by injection h
        exact List.mem_cons_self _ _
      · rw [if_neg hc] at h
        obtain rfl : u = p := by injection h
        exact List.mem_cons_of_mem t (ih hm)

theorem mem_reviewed_of_mem (alerts : List AlertRow) (alertId st now : String)
    (a : AlertRow) (ha : a ∈ alerts) (hid : a.id = alertId) :
    AlertRow.mk a.id st (some "Admin") (some now) ∈
      handleReviewAlert alerts alertId st now := by
  unfold handleReviewAlert
  have h := List.mem_map_of_mem (fun b : AlertRow =>
    if b.id == alertId then
      { b with status := st, reviewed_by := some "Admin", reviewed_at := some now }
    else b) ha
  simpa [hid] using h

/-- Claim C4, counterexample: the status domain of the transactions table
is not the three-value set of the claim.  The CHECK constraint of the
migration and the TypeScript Transaction type both allow the fourth
status value pending, which the three-value spec predicate excludes. -/
theorem C4_pending_status_counterexample :
    transactions_status_check "pending" = true ∧
    tsTransactionStatus "pending" = true ∧
    specTransactionStatus "pending" = false := by
  decide

/-- Claim C4, amended: the transactions status domain is the four-value
set success, failed, flagged, pending; the datastore CHECK constraint and
the TypeScript union agree on it, and every status the verification
engine writes lies inside it, with pending an extra accepted
value. -/
theorem C4_status_domain :
    (∀ s : String, tsTransactionStatus s = transactions_status_check s) ∧
    (∀ st : TxStatus, transactions_status_check (statusString st) = true) ∧
    transactions_status_check "pending" = true := by
  refine ⟨fun s => rfl, fun st => ?_, by decide⟩
  cases st <;> decide

/-- Claim C2, counterexample: reviewing an alert whose status is already
resolved does not fail and does not leave the alert unchanged; the
dashboard update overwrites it. -/
theorem C2_review_resolved_counterexample :
    handleReviewAlert
        [AlertRow.mk "a1" "resolved" (some "Admin") (some "t0")] "a1" "dismissed" "t1"
      = [AlertRow.mk "a1" "dismissed" (some "Admin") (some "t1")] ∧
    handleReviewAlert
        [AlertRow.mk "a1" "resolved" (some "Admin") (some "t0")] "a1" "dismissed" "t1"
      ≠ [AlertRow.mk "a1" "resolved" (some "Admin") (some "t0")] := by
  decide

/-- Claim C2, amended: the dashboard shows the review controls only for
pending alerts, but the review update itself carries no transition guard:
for an alert of any current status, reviewing it succeeds and rewrites
its status, reviewer and review time; no InvalidTransitionError value
exists in the code. -/
theorem C2_review_unconditional (alerts : List AlertRow)
    (alertId st now : String) (a : AlertRow) (ha : a ∈ alerts)
    (hid : a.id = alertId) :
    AlertRow.mk a.id st (some "Admin") (some now) ∈
      handleReviewAlert alerts alertId st now ∧
    reviewButtonsVisible a = (a.status == "pending") :=
  ⟨mem_reviewed_of_mem alerts alertId st now a ha hid, rfl⟩

/-- Claim C2, witness for the amended theorem at a concrete resolved
alert. -/
theorem C2_review_unconditional_witness :
    AlertRow.mk "a7" "dismissed" (some "Admin") (some "t9") ∈
      handleReviewAlert [AlertRow.mk "a7" "resolved" none none] "a7" "dismissed" "t9" ∧
    reviewButtonsVisible (AlertRow.mk "a7" "resolved" none none) =
      ((AlertRow.mk "a7" "resolved" none none).status == "pending") :=
  C2_review_unconditional [AlertRow.mk "a7" "resolved" none none] "a7" "dismissed" "t9"
    (AlertRow.mk "a7" "resolved" none none) (List.mem_singleton.mpr rfl) rfl

/-- Claim C9: every row the dashboard review changes carries the constant
reviewer Admin and the review time, whatever reviewer performed the
action (the handler takes no reviewer argument), and every alert matching
the reviewed id is rewritten that way. -/
theorem C9_reviewer_constant_admin (alerts : List AlertRow)
    (alertId st now : String) :
    (∀ b ∈ handleReviewAlert alerts alertId st now,
        b ∈ alerts ∨
        (b.reviewed_by = some "Admin" ∧ b.reviewed_at = some now ∧ b.status = st)) ∧
    (∀ a ∈ alerts, a.id = alertId →
        AlertRow.mk a.id st (some "Admin") (some now) ∈
          handleReviewAlert alerts alertId st now) := by
  constructor
  · intro b hb
    unfold handleReviewAlert at hb
    rcases List.mem_map.mp hb with ⟨a, ha, rfl⟩
    by_cases h : (a.id == alertId) = true
    · rw [if_pos h]
      right
      exact ⟨rfl, rfl, rfl⟩
    · rw [if_neg h]
      left
      exact ha
  · intro a ha hid
    exact mem_reviewed_of_mem alerts alertId st now a ha hid

/-- Claim C9, witness at a concrete review of a pending alert. -/
theorem C9_reviewer_constant_admin_witness :
    AlertRow.mk "b1" "resolved" (some "Admin") (some "t3") ∈
      handleReviewAlert [AlertRow.mk "b1" "pending" none none] "b1" "resolved" "t3" :=
  (C9_reviewer_constant_admin [AlertRow.mk "b1" "pending" none none] "b1" "resolved" "t3").2
    (AlertRow.mk "b1" "pending" none none) (List.mem_singleton.mpr rfl) rfl

/-- Claim C10: a successful registration stores the captured data URL
verbatim as face_embedding, and stores as face_image_url the first 100
characters of that same data URL with three dots appended (a truncated
string, not a resolvable URL); no embedding vector is computed. -/
theorem C10_embedding_stored_verbatim (table : List BeneficiaryRow)
    (img card name phone addr : String) (nid : Nat)
    (himg : img ≠ "") (hcard : card ≠ "") (hname : name ≠ "")
    (hfresh : table.any (fun r => r.card_number == card) = false) :
    handleSubmit table (some img) card name phone addr nid =
      (RegMessage.regSuccess,
       table ++ [BeneficiaryRow.mk nid card name phone addr
         (img.take 100 ++ "...") img "active"]) := by
  unfold handleSubmit dbInsertBeneficiary
  simp [himg, hcard, hname, hfresh]

/-- Claim C10, witness at a concrete registration on an empty table. -/
theorem C10_embedding_stored_verbatim_witness :
    handleSubmit [] (some "data:image/jpeg;base64,AAAA") "C9" "Rani" "p" "q" 3 =
      (RegMessage.regSuccess,
       [] ++ [BeneficiaryRow.mk 3 "C9" "Rani" "p" "q"
         ("data:image/jpeg;base64,AAAA".take 100 ++ "...")
         "data:image/jpeg;base64,AAAA" "active"]) :=
  C10_embedding_stored_verbatim [] "data:image/jpeg;base64,AAAA" "C9" "Rani" "p" "q" 3
    (by decide) (by decide) (by decide) rfl

/-- Claim C8: a registration with a missing or empty face image, or an
empty card number or name, is rejected with one of the two validation
messages and leaves the beneficiaries table unchanged. -/
theorem C8_validation_before_side_effect (table : List BeneficiaryRow)
    (imgOpt : Option String) (card name phone addr : String) (nid : Nat)
    (h : imgOpt = none ∨ imgOpt = some "" ∨ card = "" ∨ name = "") :
    (handleSubmit table imgOpt card name phone addr nid).2 = table ∧
    ((handleSubmit table imgOpt card name phone addr nid).1 = RegMessage.missingImage ∨
     (handleSubmit table imgOpt card name phone addr nid).1 = RegMessage.missingFields) := by
  rcases h with h | h | h | h
  · subst h
    exact ⟨rfl, Or.inl rfl⟩
  · subst h
    exact ⟨rfl, Or.inl rfl⟩
  · subst h
    cases imgOpt with
    | none => exact ⟨rfl, Or.inl rfl⟩
    | some img =>
      by_cases hi : img = ""
      · subst hi
        exact ⟨rfl, Or.inl rfl⟩
      · unfold handleSubmit
        simp [hi]
  · subst h
    cases imgOpt with
    | none => exact ⟨rfl, Or.inl rfl⟩
    | some img =>
      by_cases hi : img = ""
      · subst hi
        exact ⟨rfl, Or.inl rfl⟩
      · unfold handleSubmit
        simp [hi]

/-- Claim C8, witness at a concrete call with an empty name. -/
theorem C8_validation_before_side_effect_witness :
    (handleSubmit [sampleRow] (some "img") "C2" "" "p" "q" 4).2 = [sampleRow] ∧
    ((handleSubmit [sampleRow] (some "img") "C2" "" "p" "q" 4).1 = RegMessage.missingImage ∨
     (handleSubmit [sampleRow] (some "img") "C2" "" "p" "q" 4).1 = RegMessage.missingFields) :=
  C8_validation_before_side_effect [sampleRow] (some "img") "C2" "" "p" "q" 4
    (Or.inr (Or.inr (Or.inr rfl)))

/-- Claim C3: card-number uniqueness of the beneficiaries registry.
Part one: a successful registration preserves duplicate freedom of the
card_number column.  Part two: whenever the card number is already
present, whatever the status of the existing row, registration does not
succeed and the table is unchanged.  Part three: the datastore unique
constraint itself rejects a duplicate insert, independently of the
application-level existence check. -/
theorem C3_card_number_uniqueness :
    (∀ (table : List BeneficiaryRow) (img card name phone addr : String) (nid : Nat),
       cardNodup table →
       (handleSubmit table (some img) card name phone addr nid).1 = RegMessage.regSuccess →
       cardNodup (handleSubmit table (some img) card name phone addr nid).2) ∧
    (∀ (table : List BeneficiaryRow) (imgOpt : Option String)
       (card name phone addr : String) (nid : Nat) (r : BeneficiaryRow),
       r ∈ table → r.card_number = card →
       (handleSubmit table imgOpt card name phone addr nid).2 = table ∧
       (handleSubmit table imgOpt card name phone addr nid).1 ≠ RegMessage.regSuccess) ∧
    (∀ (table : List BeneficiaryRow) (row : BeneficiaryRow),
       (∃ r ∈ table, r.card_number = row.card_number) →
       dbInsertBeneficiary table row = Except.error DbError.uniqueViolation) := by
  refine ⟨?_, ?_, ?_⟩
  · intro table img card name phone addr nid hnd hsucc
    by_cases h1 : img = ""
    · simp [handleSubmit, h1] at hsucc
    · by_cases h2 : card = "" ∨ name = ""
      · unfold handleSubmit at hsucc
        rcases h2 with h2 | h2 <;> simp [h1, h2] at hsucc
      · push_neg at h2
        by_cases h3 : (table.any fun r => r.card_number == card) = true
        · simp [handleSubmit, h1, h2.1, h2.2, h3] at hsucc
        · unfold handleSubmit dbInsertBeneficiary
          simp only [Bool.not_eq_true] at h3
          simp [h1, h2.1, h2.2, h3, cardNodup, List.nodup_append]
          constructor
          · exact hnd
          · intro r hr hcontra
            have : (table.any fun r => r.card_number == card) = true :=
              List.any_eq_true.mpr ⟨r, hr, by simp [hcontra]⟩
            rw [h3] at this
            cases this
  · intro table imgOpt card name phone addr nid r hr hcard
    have hany : (table.any fun s => s.card_number == card) = true :=
      List.any_eq_true.mpr ⟨r, hr, by simp [hcard]⟩
    cases imgOpt with
    | none => exact ⟨rfl, by simp [handleSubmit]⟩
    | some img =>
      by_cases h1 : img = ""
      · subst h1
        exact ⟨rfl, by simp [handleSubmit]⟩
      · by_cases h2 : card = "" ∨ name = ""
        · unfold handleSubmit
          rcases h2 with h2 | h2 <;> simp [h1, h2]
        · push_neg at h2
          unfold handleSubmit
          simp [h1, h2.1, h2.2, hany]
  · intro table row hex
    rcases hex with ⟨r, hr, hc⟩
    have hany : (table.any fun s => s.card_number == row.card_number) = true :=
      List.any_eq_true.mpr ⟨r, hr, by simp [hc]⟩
    unfold dbInsertBeneficiary
    rw [if_pos hany]

/-- Claim C3, witness: a fresh registration on an empty table keeps the
column duplicate free; a repeated card number (on a suspended row) leaves
the table unchanged without success; the datastore insert itself rejects
the duplicate. -/
theorem C3_card_number_uniqueness_witness :
    cardNodup (handleSubmit [] (some "i") "C1" "Asha" "" "" 1).2 ∧
    ((handleSubmit [sampleRow] (some "i") "C1" "Mona" "" "" 2).2 = [sampleRow] ∧
     (handleSubmit [sampleRow] (some "i") "C1" "Mona" "" "" 2).1 ≠ RegMessage.regSuccess) ∧
    dbInsertBeneficiary [sampleRow] (BeneficiaryRow.mk 2 "C1" "Mona" "" "" "u2" "e2" "active")
      = Except.error DbError.uniqueViolation :=
  ⟨C3_card_number_uniqueness.1 [] "i" "C1" "Asha" "" "" 1 (by decide) (by decide),
   C3_card_number_uniqueness.2.1 [sampleRow] (some "i") "C1" "Mona" "" "" 2 sampleRow
     (List.mem_singleton.mpr rfl) rfl,
   C3_card_number_uniqueness.2.2 [sampleRow]
     (BeneficiaryRow.mk 2 "C1" "Mona" "" "" "u2" "e2" "active")
     ⟨sampleRow, List.mem_singleton.mpr rfl, rfl⟩⟩

/-- Claim C1: when the card resolves to a known beneficiary and the face
confidence lies strictly below the threshold, the verification fails:
whatever the prior ledger history, the appended transaction carries
status failed and a different_person alert of critical severity is
raised, already on the very first attempt for the card. -/
theorem C1_rule1_precedence (cfg : Config) (registry : List Beneficiary)
    (ledger : List Tx) (card : String) (shop cycle : Nat) (c : ℚ)
    (now : ℤ) (nid : Nat) (ben : Beneficiary)
    (hl : lookupBeneficiary registry card = some ben)
    (hc : c < cfg.FACE_MATCH_THRESHOLD) :
    (verify cfg registry ledger card shop cycle (some c) now nid).2.transaction_status
      = TxStatus.failed ∧
    (verify cfg registry ledger card shop cycle (some c) now nid).1
      = ledger ++ [Tx.mk nid (some ben.id) card shop cycle (some c) TxStatus.failed now] ∧
    AlertSpec.mk AlertType.different_person Severity.critical none ∈
      (verify cfg registry ledger card shop cycle (some c) now nid).2.alerts := by
  have hna : ¬ (cfg.FACE_MATCH_THRESHOLD ≤ c) := not_le.mpr hc
  simp [verify, hl, evaluateRules, faceAccepted, deriveStatus, hna, hc]

/-- Claim C1, witness: first-ever attempt (empty ledger) on a known card
with confidence one quarter against threshold one half. -/
theorem C1_rule1_precedence_witness :
    (verify sampleCfg [sampleBen] [] "C001" 2 5 (some (mkRat 1 4)) 100 11).2.transaction_status
      = TxStatus.failed ∧
    (verify sampleCfg [sampleBen] [] "C001" 2 5 (some (mkRat 1 4)) 100 11).1
      = [] ++ [Tx.mk 11 (some sampleBen.id) "C001" 2 5 (some (mkRat 1 4)) TxStatus.failed 100] ∧
    AlertSpec.mk AlertType.different_person Severity.critical none ∈
      (verify sampleCfg [sampleBen] [] "C001" 2 5 (some (mkRat 1 4)) 100 11).2.alerts :=
  C1_rule1_precedence sampleCfg [sampleBen] [] "C001" 2 5 (mkRat 1 4) 100 11 sampleBen
    (by decide) (by decide)

/-- Claim C5, counterexample: the default face-match threshold the
repository documents for backend/config.py is 0.6, not 60. -/
theorem C5_threshold_default_counterexample : FACE_MATCH_THRESHOLD ≠ 60 := by
  decide

/-- Claim C5, amended: the configurable face-match threshold has the
documented default 0.6; the orchestrator accepts a face on a known card
exactly when the comparator confidence is at least the configured
threshold; and the datastore constrains stored confidences to the range
0 to 100. -/
theorem C5_threshold_acceptance (cfg : Config) (registry : List Beneficiary)
    (ledger : List Tx) (card : String) (shop cycle : Nat) (c : ℚ)
    (now : ℤ) (nid : Nat) (ben : Beneficiary)
    (hl : lookupBeneficiary registry card = some ben) :
    FACE_MATCH_THRESHOLD = mkRat 6 10 ∧
    ((verify cfg registry ledger card shop cycle (some c) now nid).2.accepted = true ↔
      cfg.FACE_MATCH_THRESHOLD ≤ c) ∧
    (∀ q : ℚ, face_match_confidence_check q = true ↔ 0 ≤ q ∧ q ≤ 100) := by
  refine ⟨rfl, ?_, fun q => by simp [face_match_confidence_check]⟩
  simp [verify, hl, faceAccepted]

/-- Claim C5, witness at a concrete accepted verification. -/
theorem C5_threshold_acceptance_witness :
    FACE_MATCH_THRESHOLD = mkRat 6 10 ∧
    ((verify sampleCfg [sampleBen] [] "C001" 1 5 (some 80) 100 11).2.accepted = true ↔
      sampleCfg.FACE_MATCH_THRESHOLD ≤ 80) ∧
    (∀ q : ℚ, face_match_confidence_check q = true ↔ 0 ≤ q ∧ q ≤ 100) :=
  C5_threshold_acceptance sampleCfg [sampleBen] [] "C001" 1 5 80 100 11 sampleBen (by decide)

theorem hoursApart_add (t d : ℤ) (hd : 0 ≤ d) : hoursApart (t + d) t = d := by
  unfold hoursApart
  split <;> omega

theorem mem_suspicious_timing_window (cfg : Config) (cur : Attempt)
    (hist : List Tx) (ben : Beneficiary) (a : AlertSpec)
    (ha : a ∈ evaluateRules cfg cur hist ben)
    (ht : a.alert_type = AlertType.suspicious_timing) :
    ∃ p ∈ hist, p.card_number = cur.card_number ∧
      hoursApart cur.time p.created_at ≤ cfg.DUPLICATE_TIME_WINDOW_HOURS := by
  unfold evaluateRules at ha
  simp only [List.mem_append] at ha
  rcases ha with ((h | h) | h) | h
  · split at h
    · split at h
      · simp only [List.mem_singleton] at h
        subst h
        simp at ht
      · simp at h
    · simp at h
  · split at h
    · split at h
      · simp only [List.mem_singleton] at h
        subst h
        simp at ht
      · simp at h
    · simp at h
  · split at h
    · split at h
      · split at h
        · simp only [List.mem_singleton] at h
          subst h
          simp at ht
        · simp at h
      · simp at h
    · simp at h
  · split at h
    · rename_i haccepted
      split at h
      · rename_i p hp
        have hm := nearestTx_mem cur.time _ p hp
        rcases List.mem_filter.mp hm with ⟨hmem, hpred⟩
        simp only [Bool.and_eq_true, beq_iff_eq, decide_eq_true_eq] at hpred
        exact ⟨p, hmem, hpred.1, hpred.2⟩
      · simp at h
    · simp at h

/-- Claim C6: every verification call appends exactly one transaction to
the ledger; on the unknown-card path the appended transaction is failed
with a null beneficiary id and the rule evaluator is not run (no alerts
are produced). -/
theorem C6_audit_completeness (cfg : Config) (registry : List Beneficiary)
    (ledger : List Tx) (card : String) (shop cycle : Nat)
    (conf : Option ℚ) (now : ℤ) (nid : Nat) :
    (∃ tx : Tx, (verify cfg registry ledger card shop cycle conf now nid).1
        = ledger ++ [tx]) ∧
    (lookupBeneficiary registry card = none →
      (verify cfg registry ledger card shop cycle conf now nid).1
          = ledger ++ [Tx.mk nid none card shop cycle none TxStatus.failed now] ∧
      (verify cfg registry ledger card shop cycle conf now nid).2.transaction_status
          = TxStatus.failed ∧
      (verify cfg registry ledger card shop cycle conf now nid).2.alerts = []) := by
  cases hl : lookupBeneficiary registry card with
  | none =>
    refine ⟨⟨Tx.mk nid none card shop cycle none TxStatus.failed now, ?_⟩, fun h => ?_⟩
    · simp [verify, hl]
    · exact ⟨by simp [verify, hl], by simp [verify, hl], by simp [verify, hl]⟩
  | some ben =>
    refine ⟨⟨Tx.mk nid (some ben.id) card shop cycle conf
      (deriveStatus (faceAccepted cfg conf)
        (evaluateRules cfg (Attempt.mk card shop cycle now conf)
          (ledger.filter (fun t => t.cycle_id == cycle)) ben)) now, ?_⟩, fun h => ?_⟩
    · simp [verify, hl]
    · cases h

/-- Claim C6, witness: unknown card on an empty ledger with no
comparator result still appends one failed transaction. -/
theorem C6_audit_completeness_witness :
    (∃ tx : Tx, (verify sampleCfg [sampleBen] [] "ZZZ" 1 5 none 100 7).1 = [] ++ [tx]) ∧
    (lookupBeneficiary [sampleBen] "ZZZ" = none →
      (verify sampleCfg [sampleBen] [] "ZZZ" 1 5 none 100 7).1
          = [] ++ [Tx.mk 7 none "ZZZ" 1 5 none TxStatus.failed 100] ∧
      (verify sampleCfg [sampleBen] [] "ZZZ" 1 5 none 100 7).2.transaction_status
          = TxStatus.failed ∧
      (verify sampleCfg [sampleBen] [] "ZZZ" 1 5 none 100 7).2.alerts = []) :=
  C6_audit_completeness sampleCfg [sampleBen] [] "ZZZ" 1 5 none 100 7

/-- Claim C7: with the duplicate window at its default of 24 hours, a
second accepted attempt for the same card 2 hours after a prior
transaction raises a suspicious_timing alert of medium severity whose
previous_transaction_id is the nearest-in-time prior transaction; the
same second attempt 30 hours after the prior transaction raises no
suspicious_timing alert. -/
theorem C7_suspicious_timing_window (cfg : Config) (registry : List Beneficiary)
    (ben : Beneficiary) (t1 : Tx) (card : String) (shop cycle : Nat)
    (c : ℚ) (nid : Nat)
    (hw : cfg.DUPLICATE_TIME_WINDOW_HOURS = DUPLICATE_TIME_WINDOW_HOURS)
    (hl : lookupBeneficiary registry card = some ben)
    (ht1card : t1.card_number = card)
    (ht1cyc : t1.cycle_id = cycle)
    (hacc : cfg.FACE_MATCH_THRESHOLD ≤ c) :
    (∃ a ∈ (verify cfg registry [t1] card shop cycle (some c)
        (t1.created_at + 2) nid).2.alerts,
      a.alert_type = AlertType.suspicious_timing ∧ a.severity = Severity.medium ∧
      a.previous_transaction_id = some t1.id) ∧
    (∀ a ∈ (verify cfg registry [t1] card shop cycle (some c)
        (t1.created_at + 30) nid).2.alerts,
      a.alert_type ≠ AlertType.suspicious_timing) := by
  have hnl : ¬ (c < cfg.FACE_MATCH_THRESHOLD) := not_lt.mpr hacc
  constructor
  · refine ⟨AlertSpec.mk AlertType.suspicious_timing Severity.medium (some t1.id), ?_, rfl, rfl, rfl⟩
    have h2 : hoursApart (t1.created_at + 2) t1.created_at = 2 :=
      hoursApart_add t1.created_at 2 (by decide)
    simp [verify, hl, evaluateRules, faceAccepted, hacc, hnl, ht1card, ht1cyc, hw,
      DUPLICATE_TIME_WINDOW_HOURS, h2, nearestTx]
  · intro a ha hcontra
    have hred : (verify cfg registry [t1] card shop cycle (some c)
        (t1.created_at + 30) nid).2.alerts =
        evaluateRules cfg (Attempt.mk card shop cycle (t1.created_at + 30) (some c))
          ([t1].filter (fun t => t.cycle_id == cycle)) ben := by
      simp [verify, hl]
    rw [hred] at ha
    obtain ⟨p, hp, hpcard, hpwin⟩ :=
      mem_suspicious_timing_window cfg _ _ ben a ha hcontra
    have hpmem : p ∈ [t1] := List.mem_of_mem_filter hp
    have hpt1 : p = t1 := List.mem_singleton.mp hpmem
    subst hpt1
    have h30 : hoursApart (p.created_at + 30) p.created_at = 30 :=
      hoursApart_add p.created_at 30 (by decide)
    rw [hw] at hpwin
    unfold DUPLICATE_TIME_WINDOW_HOURS at hpwin
    dsimp only at hpwin
    rw [h30] at hpwin
    omega

/-- Claim C7, witness: concrete prior success at hour 100, second
accepted attempts at hours 102 and 130 against a 24 hour window. -/
theorem C7_suspicious_timing_window_witness :
    (∃ a ∈ (verify sampleCfg [sampleBen] [sampleTx] "C001" 2 5 (some 80)
        (sampleTx.created_at + 2) 11).2.alerts,
      a.alert_type = AlertType.suspicious_timing ∧ a.severity = Severity.medium ∧
      a.previous_transaction_id = some sampleTx.id) ∧
    (∀ a ∈ (verify sampleCfg [sampleBen] [sampleTx] "C001" 2 5 (some 80)
        (sampleTx.created_at + 30) 11).2.alerts,
      a.alert_type ≠ AlertType.suspicious_timing) :=
  C7_suspicious_timing_window sampleCfg [sampleBen] sampleBen sampleTx "C001" 2 5 80 11
    (by decide) (by decide) rfl rfl (by decide)

end BPL
